import Mathlib

/-!
Shallow embedding of `src/lambda_function.py` (Game Day notification lambda).

The module embeds the two functions of the source file:

* `format_game_data` — formats one game record into a multi-line string,
  branching on the game's status;
* `lambda_handler` — validates configuration, fetches and decodes the game
  list, formats every game, and publishes the joined message.

Python dictionaries coming from the decoded JSON are embedded as structures
of `Option String` fields: `none` models an absent key, and a present value
is carried as the string Python's f-string interpolation would render it to
(`str(v)`), since every value read from a record flows directly into an
f-string.  `dict.get(k, d)` becomes `Option.getD`.  A Python expression that
can raise (`q['Number']` on a dict without that key) is embedded in the
`Option` monad, `none` modelling the raised `KeyError`.

The handler's two effectful calls (the HTTP fetch and the SNS publish) are
embedded by passing their outcomes as parameters, and the handler returns,
next to its Python return value (`none` when the Python code would raise
out of the handler), an `Effects` record saying whether the HTTP call and
the publish call were reached and with which message the publish was made.
-/

namespace GameDay

/-- One quarter record of a game, as read from the decoded JSON:
`{"Number": ..., "AwayScore": ..., "HomeScore": ...}`. -/
structure Quarter where
  Number : Option String := none
  AwayScore : Option String := none
  HomeScore : Option String := none
deriving DecidableEq, Repr

/-- One game record, as read from the decoded JSON.  Fields are the keys
`format_game_data` reads; `none` models an absent key. -/
structure Game where
  Status : Option String := none
  AwayTeam : Option String := none
  HomeTeam : Option String := none
  AwayTeamScore : Option String := none
  HomeTeamScore : Option String := none
  DateTime : Option String := none
  Channel : Option String := none
  LastPlay : Option String := none
  Quarters : Option (List Quarter) := none
deriving DecidableEq, Repr

/-- Python `sep.join(xs)` on a list of strings. -/
def pyJoin (sep : String) : List String → String
  | [] => ""
  | [x] => x
  | x :: y :: xs => x ++ sep ++ pyJoin sep (y :: xs)

/-- One element of the quarter-scores list comprehension:
`f"Q{q['Number']}: {q.get('AwayScore', 'N/A')}-{q.get('HomeScore', 'N/A')}"`.
`q['Number']` is a bracket access: on a record without the `Number` key it
raises `KeyError`, embedded as `none`. -/
def quarterEntry (q : Quarter) : Option String :=
  match q.Number with
  | none => none
  | some n => some ("Q" ++ n ++ ": " ++ q.AwayScore.getD "N/A" ++ "-" ++ q.HomeScore.getD "N/A")

/-- The list comprehension `[f"Q{q['Number']}: ..." for q in quarters]`,
evaluated left to right; the first raising element aborts the whole
comprehension. -/
def quarterEntries : List Quarter → Option (List String)
  | [] => some []
  | q :: qs =>
    match quarterEntry q, quarterEntries qs with
    | some s, some rest => some (s :: rest)
    | _, _ => none

/-- The score string `f"{game.get('AwayTeamScore', 'N/A')}-{game.get('HomeTeamScore', 'N/A')}"`
that the source binds to `final_score`. -/
def finalScore (game : Game) : String :=
  game.AwayTeamScore.getD "N/A" ++ "-" ++ game.HomeTeamScore.getD "N/A"

/-- `format_game_data(game)` from the source: format one game record based on
its status.  Returns `none` exactly when the Python function raises
(`KeyError` from `q['Number']` in the quarter-scores comprehension, which is
evaluated before the status branch). -/
def format_game_data (game : Game) : Option String :=
  let status := game.Status.getD "Unknown"
  let away_team := game.AwayTeam.getD "Unknown"
  let home_team := game.HomeTeam.getD "Unknown"
  let final_score := finalScore game
  let start_time := game.DateTime.getD "Unknown"
  let channel := game.Channel.getD "Unknown"
  let quarters := game.Quarters.getD []
  match quarterEntries quarters with
  | none => none
  | some entries =>
    let quarter_scores := pyJoin ", " entries
    if status = "Final" then
      some ("Game Status: " ++ status ++ "\n" ++
        away_team ++ " vs " ++ home_team ++ "\n" ++
        "Final Score: " ++ final_score ++ "\n" ++
        "Start Time: " ++ start_time ++ "\n" ++
        "Channel: " ++ channel ++ "\n" ++
        "Quarter Scores: " ++ quarter_scores ++ "\n")
    else if status = "InProgress" then
      let last_play := game.LastPlay.getD "N/A"
      some ("Game Status: " ++ status ++ "\n" ++
        away_team ++ " vs " ++ home_team ++ "\n" ++
        "Current Score: " ++ final_score ++ "\n" ++
        "Last Play: " ++ last_play ++ "\n" ++
        "Channel: " ++ channel ++ "\n")
    else if status = "Scheduled" then
      some ("Game Status: " ++ status ++ "\n" ++
        away_team ++ " vs " ++ home_team ++ "\n" ++
        "Start Time: " ++ start_time ++ "\n" ++
        "Channel: " ++ channel ++ "\n")
    else
      some ("Game Status: " ++ status ++ "\n" ++
        away_team ++ " vs " ++ home_team ++ "\n" ++
        "Details are unavailable at the moment.\n")

/-- The list comprehension `[format_game_data(game) for game in data]`;
a raising element aborts the comprehension (and the handler). -/
def formatGames : List Game → Option (List String)
  | [] => some []
  | g :: gs =>
    match format_game_data g, formatGames gs with
    | some s, some rest => some (s :: rest)
    | _, _ => none

/-- Python truthiness of an environment read: `os.getenv` returns `None`
(absent) or a string, and `not x` holds for `None` and for `""`. -/
def truthy : Option String → Bool
  | none => false
  | some s => !(s == "")

/-- The dictionary `{"statusCode": ..., "body": ...}` the handler returns. -/
structure LambdaResult where
  statusCode : Nat
  body : String
deriving DecidableEq, Repr

/-- Outcome of the `urllib.request.urlopen` / `json.loads` block, one
constructor per `except` clause plus success. -/
inductive FetchOutcome where
  | httpError (code : Nat) (reason : String)
  | urlError (reason : String)
  | jsonDecodeError
  | otherError (msg : String)
  | ok (data : List Game)
deriving DecidableEq, Repr

/-- Outcome of the `sns_client.publish` call, one constructor per `except`
clause plus success. -/
inductive PublishOutcome where
  | clientError (msg : String)
  | otherError (msg : String)
  | ok
deriving DecidableEq, Repr

/-- Which of the handler's two effectful calls were reached, and the
`Message` argument the publish call was made with. -/
structure Effects where
  httpCalled : Bool
  publishAttempted : Bool
  publishedMessage : Option String
deriving DecidableEq, Repr

/-- `lambda_handler(event, context)` from the source.  The two environment
variables `NBA_API_KEY` and `SNS_TOPIC_ARN` are passed as the values
`os.getenv` returns; the outcomes of the fetch and of the publish are passed
as parameters.  First component: the handler's return value (`none` models
an exception escaping the handler, which happens only when
`format_game_data` raises).  Second component: the effects reached. -/
def lambda_handler (api_key sns_topic_arn : Option String)
    (fetch : FetchOutcome) (publish : PublishOutcome) :
    Option LambdaResult × Effects :=
  if !truthy api_key || !truthy sns_topic_arn then
    (some ⟨500, "Missing environment variables"⟩, ⟨false, false, none⟩)
  else
    match fetch with
    | .httpError code reason =>
      (some ⟨code, "HTTP Error: " ++ reason⟩, ⟨true, false, none⟩)
    | .urlError reason =>
      (some ⟨500, "URL Error: " ++ reason⟩, ⟨true, false, none⟩)
    | .jsonDecodeError =>
      (some ⟨500, "Error decoding JSON response"⟩, ⟨true, false, none⟩)
    | .otherError msg =>
      (some ⟨500, "Unexpected error: " ++ msg⟩, ⟨true, false, none⟩)
    | .ok data =>
      if data.isEmpty then
        (some ⟨200, "No games available for today."⟩, ⟨true, false, none⟩)
      else
        match formatGames data with
        | none => (none, ⟨true, false, none⟩)
        | some messages =>
          let final_message := pyJoin "\n---\n" messages
          match publish with
          | .clientError _ =>
            (some ⟨500, "Error publishing to SNS"⟩, ⟨true, true, some final_message⟩)
          | .otherError msg =>
            (some ⟨500, "Unexpected error: " ++ msg⟩, ⟨true, true, some final_message⟩)
          | .ok =>
            (some ⟨200, "Data processed and sent to SNS"⟩, ⟨true, true, some final_message⟩)

/-- `pat` occurs as a contiguous substring of `s`. -/
def strContains (pat s : String) : Prop :=
  ∃ a b : List Char, s.data = a ++ pat.data ++ b

/-- The strings of `ps` all occur in `s`, pairwise disjoint and in the given
order. -/
def containsInOrder : List Char → List String → Prop
  | _, [] => True
  | s, p :: ps => ∃ a b : List Char, s = a ++ p.data ++ b ∧ containsInOrder b ps

/-- The first two lines every branch of `format_game_data` emits. -/
def headerOf (game : Game) : String :=
  "Game Status: " ++ game.Status.getD "Unknown" ++ "\n" ++
    game.AwayTeam.getD "Unknown" ++ " vs " ++ game.HomeTeam.getD "Unknown" ++ "\n"

/-- Concrete game records used to instantiate the theorems below. -/
def gameScenario : Game :=
  { Status := some "Final", AwayTeam := some "Lakers", HomeTeam := some "Celtics",
    AwayTeamScore := some "101", HomeTeamScore := some "99",
    DateTime := some "2024-01-01T19:00", Channel := some "ESPN",
    Quarters := some [{ Number := some "1", AwayScore := some "25", HomeScore := some "20" }] }

/-- A scheduled game whose broadcast channel happens to coincide with the
score string `"N/A-N/A"` that two absent scores render to. -/
def gameC7 : Game := { Status := some "Scheduled", Channel := some "N/A-N/A" }

/-- A game whose single quarter record lacks the `Number` key. -/
def gameC1 : Game := { Status := some "Final", Quarters := some [{}] }

theorem containsInOrder_append_left (a s : List Char) (ps : List String)
    (h : containsInOrder s ps) : containsInOrder (a ++ s) ps := by
  cases ps with
  | nil => trivial
  | cons p ps =>
    obtain ⟨x, y, hxy, hrest⟩ := h
    exact ⟨a ++ x, y, by rw [hxy]; simp, hrest⟩

theorem containsInOrder_append_right (s b : List Char) (ps : List String)
    (h : containsInOrder s ps) : containsInOrder (s ++ b) ps := by
  induction ps generalizing s with
  | nil => trivial
  | cons p ps ih =>
    obtain ⟨x, y, hxy, hrest⟩ := h
    exact ⟨x, y ++ b, by rw [hxy]; simp, ih y hrest⟩

/-- Joining a list of strings yields a string containing each of them, in
order. -/
theorem containsInOrder_pyJoin (sep : String) (l : List String) :
    containsInOrder (pyJoin sep l).data l := by
  induction l with
  | nil => trivial
  | cons p ps ih =>
    cases ps with
    | nil => exact ⟨[], [], by simp [pyJoin], trivial⟩
    | cons q qs =>
      refine ⟨[], (sep ++ pyJoin sep (q :: qs)).data, ?_, ?_⟩
      · simp [pyJoin, String.data_append]
      · rw [String.data_append]
        exact containsInOrder_append_left _ _ _ ih

/-- C3: if either required configuration value (the API key or the topic
identifier) is absent — Python-falsy — `lambda_handler` returns status 500
with the missing-configuration body, and neither the HTTP fetch nor the
publish call is reached. -/
theorem c3_missing_config (api_key sns_topic_arn : Option String)
    (fetch : FetchOutcome) (publish : PublishOutcome)
    (h : truthy api_key = false ∨ truthy sns_topic_arn = false) :
    lambda_handler api_key sns_topic_arn fetch publish =
      (some ⟨500, "Missing environment variables"⟩, ⟨false, false, none⟩) := by
  unfold lambda_handler
  rcases h with h | h <;> simp [h]

theorem c3_missing_config_witness :
    lambda_handler none (some "topic-a") (FetchOutcome.ok [gameScenario]) PublishOutcome.ok =
      (some ⟨500, "Missing environment variables"⟩, ⟨false, false, none⟩) :=
  c3_missing_config none (some "topic-a") _ _ (Or.inl (by decide))

/-- C10: an empty-string value of either configuration variable behaves
exactly like an absent one: the handler returns the same
missing-configuration result, makes no HTTP call, and is equal to the run
with both variables absent. -/
theorem c10_empty_config_like_absent (api_key sns_topic_arn : Option String)
    (fetch : FetchOutcome) (publish : PublishOutcome)
    (h : api_key = some "" ∨ sns_topic_arn = some "") :
    lambda_handler api_key sns_topic_arn fetch publish =
      (some ⟨500, "Missing environment variables"⟩, ⟨false, false, none⟩) ∧
    lambda_handler api_key sns_topic_arn fetch publish =
      lambda_handler none none fetch publish := by
  have hc : truthy api_key = false ∨ truthy sns_topic_arn = false := by
    rcases h with h | h <;> [left; right] <;> simp [h, truthy]
  refine ⟨c3_missing_config _ _ _ _ hc, ?_⟩
  rw [c3_missing_config _ _ _ _ hc,
    c3_missing_config none none _ _ (Or.inl (by decide))]

theorem c10_empty_config_like_absent_witness :
    (lambda_handler (some "") (some "topic-a") (FetchOutcome.ok [gameScenario]) PublishOutcome.ok =
      (some ⟨500, "Missing environment variables"⟩, ⟨false, false, none⟩) ∧
    lambda_handler (some "") (some "topic-a") (FetchOutcome.ok [gameScenario]) PublishOutcome.ok =
      lambda_handler none none (FetchOutcome.ok [gameScenario]) PublishOutcome.ok) :=
  c10_empty_config_like_absent (some "") (some "topic-a") _ _ (Or.inl rfl)

/-- C4: with valid configuration, an empty decoded game list yields status
200 with body "No games available for today." and no publish call. -/
theorem c4_no_games (api_key sns_topic_arn : Option String) (publish : PublishOutcome)
    (hak : truthy api_key = true) (htp : truthy sns_topic_arn = true) :
    lambda_handler api_key sns_topic_arn (FetchOutcome.ok []) publish =
      (some ⟨200, "No games available for today."⟩, ⟨true, false, none⟩) := by
  unfold lambda_handler
  simp [hak, htp]

theorem c4_no_games_witness :
    lambda_handler (some "key-a") (some "topic-a") (FetchOutcome.ok []) PublishOutcome.ok =
      (some ⟨200, "No games available for today."⟩, ⟨true, false, none⟩) :=
  c4_no_games (some "key-a") (some "topic-a") PublishOutcome.ok (by decide) (by decide)

/-- C5: with valid configuration, an upstream HTTP error is reported with
the upstream status code and a body "HTTP Error: {reason}" (containing both
the literal "HTTP Error" and the reason), and a transport error is reported
with status 500 and body "URL Error: {reason}" (containing the reason); in
both cases no publish call is made. -/
theorem c5_http_and_url_errors (api_key sns_topic_arn : Option String)
    (publish : PublishOutcome) (code : Nat) (reason msg : String)
    (hak : truthy api_key = true) (htp : truthy sns_topic_arn = true) :
    lambda_handler api_key sns_topic_arn (FetchOutcome.httpError code reason) publish =
      (some ⟨code, "HTTP Error: " ++ reason⟩, ⟨true, false, none⟩) ∧
    strContains "HTTP Error" ("HTTP Error: " ++ reason) ∧
    strContains reason ("HTTP Error: " ++ reason) ∧
    lambda_handler api_key sns_topic_arn (FetchOutcome.urlError msg) publish =
      (some ⟨500, "URL Error: " ++ msg⟩, ⟨true, false, none⟩) ∧
    strContains msg ("URL Error: " ++ msg) := by
  have hsplit : "HTTP Error: ".data = "HTTP Error".data ++ ": ".data := by decide
  refine ⟨?_, ⟨[], ": ".data ++ reason.data, ?_⟩, ⟨"HTTP Error: ".data, [], ?_⟩,
    ?_, ⟨"URL Error: ".data, [], ?_⟩⟩
  · unfold lambda_handler; simp [hak, htp]
  · simp [String.data_append, hsplit]
  · simp [String.data_append]
  · unfold lambda_handler; simp [hak, htp]
  · simp [String.data_append]

theorem c5_http_and_url_errors_witness :
    (lambda_handler (some "key-a") (some "topic-a")
        (FetchOutcome.httpError 404 "Not Found") PublishOutcome.ok =
      (some ⟨404, "HTTP Error: " ++ "Not Found"⟩, ⟨true, false, none⟩) ∧
    strContains "HTTP Error" ("HTTP Error: " ++ "Not Found") ∧
    strContains "Not Found" ("HTTP Error: " ++ "Not Found") ∧
    lambda_handler (some "key-a") (some "topic-a")
        (FetchOutcome.urlError "connection refused") PublishOutcome.ok =
      (some ⟨500, "URL Error: " ++ "connection refused"⟩, ⟨true, false, none⟩) ∧
    strContains "connection refused" ("URL Error: " ++ "connection refused")) :=
  c5_http_and_url_errors (some "key-a") (some "topic-a") PublishOutcome.ok
    404 "Not Found" "connection refused" (by decide) (by decide)

/-- C6: with valid configuration, a malformed upstream JSON body is reported
as status 500 with body "Error decoding JSON response", and no publish
(hence no formatting of games) is reached. -/
theorem c6_decode_error (api_key sns_topic_arn : Option String) (publish : PublishOutcome)
    (hak : truthy api_key = true) (htp : truthy sns_topic_arn = true) :
    lambda_handler api_key sns_topic_arn FetchOutcome.jsonDecodeError publish =
      (some ⟨500, "Error decoding JSON response"⟩, ⟨true, false, none⟩) := by
  unfold lambda_handler
  simp [hak, htp]

theorem c6_decode_error_witness :
    lambda_handler (some "key-a") (some "topic-a") FetchOutcome.jsonDecodeError PublishOutcome.ok =
      (some ⟨500, "Error decoding JSON response"⟩, ⟨true, false, none⟩) :=
  c6_decode_error (some "key-a") (some "topic-a") PublishOutcome.ok (by decide) (by decide)

/-- C8: with valid configuration, a non-empty game list, and all games
formatted, exactly one publish attempt is made with the joined message;
a client (delivery) error yields status 500 with the fixed body
"Error publishing to SNS" (no exception text), any other publish exception
yields status 500 with "Unexpected error: {e}", and a successful publish
yields status 200 — in no case does the failure escape the handler. -/
theorem c8_publish_outcomes (api_key sns_topic_arn : Option String)
    (data : List Game) (messages : List String)
    (hak : truthy api_key = true) (htp : truthy sns_topic_arn = true)
    (hne : data.isEmpty = false) (hm : formatGames data = some messages) :
    (∀ m, lambda_handler api_key sns_topic_arn (FetchOutcome.ok data) (PublishOutcome.clientError m) =
      (some ⟨500, "Error publishing to SNS"⟩, ⟨true, true, some (pyJoin "\n---\n" messages)⟩)) ∧
    (∀ m, lambda_handler api_key sns_topic_arn (FetchOutcome.ok data) (PublishOutcome.otherError m) =
      (some ⟨500, "Unexpected error: " ++ m⟩, ⟨true, true, some (pyJoin "\n---\n" messages)⟩)) ∧
    lambda_handler api_key sns_topic_arn (FetchOutcome.ok data) PublishOutcome.ok =
      (some ⟨200, "Data processed and sent to SNS"⟩, ⟨true, true, some (pyJoin "\n---\n" messages)⟩) := by
  refine ⟨fun m => ?_, fun m => ?_, ?_⟩ <;>
    · unfold lambda_handler
      simp [hak, htp, hne, hm]

theorem c8_publish_outcomes_witness :
    (lambda_handler (some "key-a") (some "topic-a") (FetchOutcome.ok [gameScenario])
        (PublishOutcome.clientError "denied") =
      (some ⟨500, "Error publishing to SNS"⟩,
        ⟨true, true, some (pyJoin "\n---\n" ["Game Status: Final\nLakers vs Celtics\nFinal Score: 101-99\nStart Time: 2024-01-01T19:00\nChannel: ESPN\nQuarter Scores: Q1: 25-20\n"])⟩) ∧
    lambda_handler (some "key-a") (some "topic-a") (FetchOutcome.ok [gameScenario])
        (PublishOutcome.otherError "boom") =
      (some ⟨500, "Unexpected error: " ++ "boom"⟩,
        ⟨true, true, some (pyJoin "\n---\n" ["Game Status: Final\nLakers vs Celtics\nFinal Score: 101-99\nStart Time: 2024-01-01T19:00\nChannel: ESPN\nQuarter Scores: Q1: 25-20\n"])⟩) ∧
    lambda_handler (some "key-a") (some "topic-a") (FetchOutcome.ok [gameScenario])
        PublishOutcome.ok =
      (some ⟨200, "Data processed and sent to SNS"⟩,
        ⟨true, true, some (pyJoin "\n---\n" ["Game Status: Final\nLakers vs Celtics\nFinal Score: 101-99\nStart Time: 2024-01-01T19:00\nChannel: ESPN\nQuarter Scores: Q1: 25-20\n"])⟩)) := by
  have h := c8_publish_outcomes (some "key-a") (some "topic-a") [gameScenario]
    ["Game Status: Final\nLakers vs Celtics\nFinal Score: 101-99\nStart Time: 2024-01-01T19:00\nChannel: ESPN\nQuarter Scores: Q1: 25-20\n"]
    (by decide) (by decide) (by decide) (by decide)
  exact ⟨h.1 "denied", h.2.1 "boom", h.2.2⟩

/-- C1: evaluation of the code at the failing input — a game whose single
quarter record lacks the `Number` key.  The bracket access `q['Number']` in
the quarter-scores comprehension raises `KeyError` (embedded as `none`), so
`format_game_data` does not return a string, contradicting the claim that
every missing field is replaced by a placeholder. -/
theorem c1_missing_quarter_number_raises :
    format_game_data gameC1 = none ∧ quarterEntry {} = none := by
  constructor <;> rfl

/-- C9: whenever `format_game_data` returns a string (it raises on a quarter
record without `Number`), that string begins with the two lines
"Game Status: {status}" and "{away_team} vs {home_team}", in that order, in
all four status branches. -/
theorem c9_header_lines (game : Game) (out : String)
    (hf : format_game_data game = some out) :
    ∃ rest : List Char, out.data = (headerOf game).data ++ rest := by
  cases hq : quarterEntries (game.Quarters.getD []) with
  | none => simp [format_game_data, hq] at hf
  | some entries =>
    simp only [format_game_data, hq] at hf
    split_ifs at hf
    · rw [Option.some.injEq] at hf
      subst hf
      exact ⟨("Final Score: " ++ finalScore game ++ "\n" ++ "Start Time: " ++
        game.DateTime.getD "Unknown" ++ "\n" ++ "Channel: " ++ game.Channel.getD "Unknown" ++
        "\n" ++ "Quarter Scores: " ++ pyJoin ", " entries ++ "\n").data,
        by simp [headerOf, String.data_append]⟩
    · rw [Option.some.injEq] at hf
      subst hf
      exact ⟨("Current Score: " ++ finalScore game ++ "\n" ++ "Last Play: " ++
        game.LastPlay.getD "N/A" ++ "\n" ++ "Channel: " ++ game.Channel.getD "Unknown" ++
        "\n").data,
        by simp [headerOf, String.data_append]⟩
    · rw [Option.some.injEq] at hf
      subst hf
      exact ⟨("Start Time: " ++ game.DateTime.getD "Unknown" ++ "\n" ++ "Channel: " ++
        game.Channel.getD "Unknown" ++ "\n").data,
        by simp [headerOf, String.data_append]⟩
    · rw [Option.some.injEq] at hf
      subst hf
      exact ⟨("Details are unavailable at the moment.\n" : String).data,
        by simp [headerOf, String.data_append]⟩

theorem c9_header_lines_witness :
    ∃ rest : List Char,
      ("Game Status: Final\nLakers vs Celtics\nFinal Score: 101-99\nStart Time: 2024-01-01T19:00\nChannel: ESPN\nQuarter Scores: Q1: 25-20\n" : String).data =
        (headerOf gameScenario).data ++ rest :=
  c9_header_lines gameScenario _ (by decide)

/-- C2: for a game with status "Final" whose formatting succeeds, the output
contains the score string `{away}-{home}`, contains the "Quarter Scores: "
line holding exactly the joined quarter entries, contains each quarter entry
in input order, and an empty `Quarters` sequence joins to the empty string
without error. -/
theorem c2_final_contents (game : Game) (out : String) (entries : List String)
    (hst : game.Status = some "Final")
    (hq : quarterEntries (game.Quarters.getD []) = some entries)
    (hf : format_game_data game = some out) :
    strContains (finalScore game) out ∧
    strContains ("Quarter Scores: " ++ pyJoin ", " entries ++ "\n") out ∧
    containsInOrder out.data entries ∧
    (game.Quarters.getD [] = [] → entries = [] ∧ pyJoin ", " entries = "") := by
  simp only [format_game_data, hq, hst, Option.getD_some, reduceIte] at hf
  rw [Option.some.injEq] at hf
  subst hf
  refine ⟨?_, ?_, ?_, ?_⟩
  · exact ⟨("Game Status: " ++ "Final" ++ "\n" ++ game.AwayTeam.getD "Unknown" ++ " vs " ++
      game.HomeTeam.getD "Unknown" ++ "\n" ++ "Final Score: ").data,
      ("\n" ++ "Start Time: " ++ game.DateTime.getD "Unknown" ++ "\n" ++ "Channel: " ++
        game.Channel.getD "Unknown" ++ "\n" ++ "Quarter Scores: " ++ pyJoin ", " entries ++
        "\n").data,
      by simp [String.data_append]⟩
  · exact ⟨("Game Status: " ++ "Final" ++ "\n" ++ game.AwayTeam.getD "Unknown" ++ " vs " ++
      game.HomeTeam.getD "Unknown" ++ "\n" ++ "Final Score: " ++ finalScore game ++ "\n" ++
      "Start Time: " ++ game.DateTime.getD "Unknown" ++ "\n" ++ "Channel: " ++
      game.Channel.getD "Unknown" ++ "\n").data, [],
      by simp [String.data_append]⟩
  · have h1 := containsInOrder_pyJoin ", " entries
    have h2 := containsInOrder_append_right _ ("\n" : String).data _ h1
    have h3 := containsInOrder_append_left
      (("Game Status: " ++ "Final" ++ "\n" ++ game.AwayTeam.getD "Unknown" ++ " vs " ++
        game.HomeTeam.getD "Unknown" ++ "\n" ++ "Final Score: " ++ finalScore game ++ "\n" ++
        "Start Time: " ++ game.DateTime.getD "Unknown" ++ "\n" ++ "Channel: " ++
        game.Channel.getD "Unknown" ++ "\n" ++ "Quarter Scores: ").data) _ _ h2
    have he : ("Game Status: " ++ "Final" ++ "\n" ++ game.AwayTeam.getD "Unknown" ++ " vs " ++
        game.HomeTeam.getD "Unknown" ++ "\n" ++ "Final Score: " ++ finalScore game ++ "\n" ++
        "Start Time: " ++ game.DateTime.getD "Unknown" ++ "\n" ++ "Channel: " ++
        game.Channel.getD "Unknown" ++ "\n" ++ "Quarter Scores: " ++ pyJoin ", " entries ++
        "\n").data =
        ("Game Status: " ++ "Final" ++ "\n" ++ game.AwayTeam.getD "Unknown" ++ " vs " ++
          game.HomeTeam.getD "Unknown" ++ "\n" ++ "Final Score: " ++ finalScore game ++ "\n" ++
          "Start Time: " ++ game.DateTime.getD "Unknown" ++ "\n" ++ "Channel: " ++
          game.Channel.getD "Unknown" ++ "\n" ++ "Quarter Scores: ").data ++
          ((pyJoin ", " entries).data ++ ("\n" : String).data) := by
      simp [String.data_append]
    rw [he]
    exact h3
  · intro hempty
    rw [hempty] at hq
    have : entries = [] := by
      have := hq
      simp [quarterEntries] at this
      exact this
    subst this
    exact ⟨rfl, rfl⟩

theorem c2_final_contents_witness :
    (strContains (finalScore gameScenario)
      "Game Status: Final\nLakers vs Celtics\nFinal Score: 101-99\nStart Time: 2024-01-01T19:00\nChannel: ESPN\nQuarter Scores: Q1: 25-20\n" ∧
    strContains ("Quarter Scores: " ++ pyJoin ", " ["Q1: 25-20"] ++ "\n")
      "Game Status: Final\nLakers vs Celtics\nFinal Score: 101-99\nStart Time: 2024-01-01T19:00\nChannel: ESPN\nQuarter Scores: Q1: 25-20\n" ∧
    containsInOrder
      ("Game Status: Final\nLakers vs Celtics\nFinal Score: 101-99\nStart Time: 2024-01-01T19:00\nChannel: ESPN\nQuarter Scores: Q1: 25-20\n" : String).data
      ["Q1: 25-20"] ∧
    (gameScenario.Quarters.getD [] = [] →
      (["Q1: 25-20"] : List String) = [] ∧ pyJoin ", " ["Q1: 25-20"] = "")) :=
  c2_final_contents gameScenario _ ["Q1: 25-20"] rfl (by decide) (by decide)

/-- C7 counterexample: a Scheduled game whose `Channel` value is the string
"N/A-N/A" — the same text the score string renders to when both scores are
absent.  Its formatted output does contain the score string, so "the output
never contains the score field text" fails as literally stated. -/
theorem c7_counterexample :
    gameC7.Status = some "Scheduled" ∧
    format_game_data gameC7 =
      some "Game Status: Scheduled\nUnknown vs Unknown\nStart Time: Unknown\nChannel: N/A-N/A\n" ∧
    strContains (finalScore gameC7)
      "Game Status: Scheduled\nUnknown vs Unknown\nStart Time: Unknown\nChannel: N/A-N/A\n" :=
  ⟨rfl, by decide,
    ("Game Status: Scheduled\nUnknown vs Unknown\nStart Time: Unknown\nChannel: " : String).data,
    ("\n" : String).data, by decide⟩

/-- C7 (amended): the Scheduled branch omits the score fields — the output
is unchanged under any change to `AwayTeamScore` and `HomeTeamScore`; the
score text can only ever appear when an emitted field coincidentally
contains that text. -/
theorem c7_scheduled_ignores_scores (game : Game) (hst : game.Status = some "Scheduled")
    (a1 h1 a2 h2 : Option String) :
    format_game_data { game with AwayTeamScore := a1, HomeTeamScore := h1 } =
      format_game_data { game with AwayTeamScore := a2, HomeTeamScore := h2 } := by
  cases hq : quarterEntries (game.Quarters.getD []) with
  | none => simp [format_game_data, hq, hst]
  | some entries => simp [format_game_data, hq, hst]

theorem c7_scheduled_ignores_scores_witness :
    format_game_data { gameC7 with AwayTeamScore := some "101", HomeTeamScore := some "99" } =
      format_game_data { gameC7 with AwayTeamScore := none, HomeTeamScore := some "0" } :=
  c7_scheduled_ignores_scores gameC7 rfl (some "101") (some "99") none (some "0")

end GameDay
